import Mathlib

/-!
Verification of the `me` repository (register testbench, VHDL code-stub
generator, VCD waveform writer, diagram serializer) against its
natural-language specification.

The Python sources are shallowly embedded here:
  * `Logic` and `Logic.invert`        — src/domains/hardware/digital.py
  * `risingEdgeFires`, `risingEdgeStep`, `risingEdgeRun`
                                      — the `rising_edge` decorator in
                                        src/domains/hardware/digital.py
  * `generateCodeLanguageCheck`       — the language guard at the top of
                                        `generate_code` in
                                        src/domains/hardware/digital.py
  * `vcdVal`, `vcdBehavior`, `vcdRun` — `VCDMonitor.behavior` in
                                        src/parts/hardware/digital.py
  * `sourceDrive`, `registerBehavior`, `tbStep`, `tbRun`
                                      — `Source.behavior` and
                                        `Register.behavior` in
                                        src/demos/rtl/register.py
  * `exportPartToJson`                — `DiagramSerializer.export_part_to_json`
                                        in src/serializer.py
-/

namespace Me

/-- The 9-valued HDL standard-logic enumeration `Logic` from
src/domains/hardware/digital.py: Uninitialized, Forcing Unknown, Forcing 0,
Forcing 1, High Impedance, Weak Unknown, Weak 0, Weak 1, Don't care. -/
inductive Logic where
  | U
  | X
  | ZERO
  | ONE
  | Z
  | W
  | L
  | H
  | DONT_CARE
  deriving DecidableEq, Repr, Fintype

/-- `Logic.__invert__` from src/domains/hardware/digital.py, translated from
the chain of `if` tests: ZERO→ONE, ONE→ZERO, L→H, H→L, everything else→X. -/
def Logic.invert : Logic → Logic
  | .ZERO => .ONE
  | .ONE => .ZERO
  | .L => .H
  | .H => .L
  | _ => .X

/-- The firing condition of the `rising_edge` decorator
(src/domains/hardware/digital.py): the wrapped behavior runs iff the
previously recorded value is in [ZERO, L] and the current value is in
[ONE, H]. -/
def risingEdgeFires (prev current : Logic) : Bool :=
  (prev == Logic.ZERO || prev == Logic.L) && (current == Logic.ONE || current == Logic.H)

/-- One invocation of the `rising_edge` wrapper: it reads the gated port's
current value, unconditionally replaces the recorded previous value with it
(`setattr` before the test), and reports whether the wrapped behavior is
invoked.  Returns (fires, new recorded value). -/
def risingEdgeStep (prev current : Logic) : Bool × Logic :=
  (risingEdgeFires prev current, current)

/-- Folding the `rising_edge` wrapper over a sequence of observed port
values, starting from a recorded value (initially `Logic.U`, the `getattr`
default): the list of "did the wrapped behavior fire" outcomes per
invocation. -/
def risingEdgeRun : Logic → List Logic → List Bool
  | _, [] => []
  | prev, v :: vs => risingEdgeFires prev v :: risingEdgeRun v vs

/-- The Logic→VCD bit mapping inside `VCDMonitor.behavior`
(src/parts/hardware/digital.py): `'1' if val in [ONE, H] else '0' if val in
[ZERO, L] else 'z' if val == Z else 'x'`. -/
def vcdVal (val : Logic) : Char :=
  if val = Logic.ONE ∨ val = Logic.H then '1'
  else if val = Logic.ZERO ∨ val = Logic.L then '0'
  else if val = Logic.Z then 'z'
  else 'x'

/-- The body of `Register.behavior` (src/demos/rtl/register.py): on a clock
rising edge, `out_0` becomes ZERO when `rst` reads ONE, otherwise the value
read on `in_0`. -/
def registerBehavior (rst in0 : Logic) : Logic :=
  if rst = Logic.ONE then Logic.ZERO else in0

/-- The body of `Source.behavior` (src/demos/rtl/register.py) at a given
cycle count: drives (`rst`, `out_0`) with rst = ONE for the first 5 cycles
then ZERO, and out_0 = ONE when the cycle is divisible by 4 else ZERO. -/
def sourceDrive (cycle : Nat) : Logic × Logic :=
  (if cycle < 5 then Logic.ONE else Logic.ZERO,
   if cycle % 4 = 0 then Logic.ONE else Logic.ZERO)

/-- Port state of the register testbench visible to the claims: the source's
cycle counter and the persistent values on the register's rst, in_0 and
out_0 ports. -/
structure TBState where
  cycle : Nat
  rst : Logic
  in0 : Logic
  out0 : Logic
  deriving DecidableEq, Repr

/-- Initial testbench state: all Logic ports initialized to `Logic.U`
(`init_value=Logic.U` in the Port declarations of src/demos/rtl/register.py)
and the source's cycle counter at 0. -/
def TBState.init : TBState :=
  { cycle := 0, rst := Logic.U, in0 := Logic.U, out0 := Logic.U }

/-- Modelled from the spec: one clock rising edge under the engine's
Sequential execution strategy (spec §4.4, the `ml.strategies` engine code is
outside this repository).  Children fire in declaration order with
propagation after each: `Source.behavior` fires first, its rst/out_0 writes
propagate to the register's rst/in_0 ports, then `Register.behavior` fires
reading those freshly propagated values.  The behavior bodies themselves
are the embedded `sourceDrive` and `registerBehavior` from
src/demos/rtl/register.py. -/
def tbStep (s : TBState) : TBState :=
  let d := sourceDrive s.cycle
  { cycle := s.cycle + 1, rst := d.1, in0 := d.2,
    out0 := registerBehavior d.1 d.2 }

/-- The testbench state after `n` clock rising edges. -/
def tbRun : Nat → TBState
  | 0 => TBState.init
  | n + 1 => tbStep (tbRun n)

/-- A line of VCD body output written by `VCDMonitor.behavior`
(src/parts/hardware/digital.py): either a `#<timestamp>` header line or a
`<bit><id>` value-change line. -/
inductive VCDLine where
  | timestampLine (ts : Int)
  | valueLine (bit : Char) (id : String)
  deriving DecidableEq, Repr

/-- Mutable state of the VCD monitor relevant to the body output:
`self.last_timestamp`, initialized to -1 in `VCDMonitor.__init__`. -/
structure VCDState where
  lastTimestamp : Int
  deriving DecidableEq, Repr

/-- The monitor's initial state (`self.last_timestamp = -1`). -/
def VCDState.init : VCDState := { lastTimestamp := -1 }

/-- One invocation of `VCDMonitor.behavior` (src/parts/hardware/digital.py).
`timeMs` is `int(time_val * 1000)` when the time port holds a value, `none`
when `time_val is None` (in which case nothing is written).  `updates` lists
the (Logic value, vcd id) pairs of the monitored ports whose `is_updated()`
test passed, in iteration order.  A `#<timestamp>` line is written, and
`last_timestamp` replaced, only when the timestamp strictly exceeds
`last_timestamp`; value-change lines are written afterwards either way. -/
def vcdBehavior (s : VCDState) (timeMs : Option Int) (updates : List (Logic × String)) :
    VCDState × List VCDLine :=
  match timeMs with
  | none => (s, [])
  | some ts =>
    let hdr : VCDState × List VCDLine :=
      if s.lastTimestamp < ts then
        ({ lastTimestamp := ts }, [VCDLine.timestampLine ts])
      else (s, [])
    (hdr.1, hdr.2 ++ updates.map fun u => VCDLine.valueLine (vcdVal u.1) u.2)

/-- The VCD monitor's body output over a whole run: fold `vcdBehavior` over
the sequence of invocations, concatenating the emitted lines. -/
def vcdRun (s : VCDState) : List (Option Int × List (Logic × String)) → VCDState × List VCDLine
  | [] => (s, [])
  | inv :: rest =>
    let step := vcdBehavior s inv.1 inv.2
    let tail := vcdRun step.1 rest
    (tail.1, step.2 ++ tail.2)

/-- The timestamp carried by a line, when it is a `#<timestamp>` header. -/
def VCDLine.headerTs : VCDLine → Option Int
  | .timestampLine ts => some ts
  | .valueLine _ _ => none

/-- The timestamps of the `#` header lines in a VCD body, in emission
order. -/
def emittedTimestamps (lines : List VCDLine) : List Int :=
  lines.filterMap VCDLine.headerTs

/-- Python's `str.upper()` on one character, restricted to the ASCII
range exercised by the language argument: a lowercase letter moves to its
uppercase counterpart, anything else is unchanged. -/
def pyUpperChar (c : Char) : Char :=
  if 'a' ≤ c ∧ c ≤ 'z' then Char.ofNat (c.toNat - 32) else c

/-- Python's `str.upper()` over a whole string (ASCII behavior): upper-case
every character. -/
def pyUpper (s : String) : String :=
  String.mk (s.data.map pyUpperChar)

/-- The language guard at the top of `generate_code`
(src/domains/hardware/digital.py): `if language.upper() != "VHDL": raise
ValueError(f"Unsupported language: {language}")`.  It is the first
statement of the function, evaluated before ports are collected or any
template is read, so the error is raised before any code is produced. -/
def generateCodeLanguageCheck (language : String) : Except String Unit :=
  if pyUpper language ≠ "VHDL" then
    Except.error ("Unsupported language: " ++ language)
  else
    Except.ok ()

/-- Port direction constants `Port.IN` / `Port.OUT` of the external
`ml.engine`. -/
inductive Direction where
  | IN
  | OUT
  deriving DecidableEq, Repr

/-- A port as read by the serializer: its identifier (`get_identifier()`),
its direction (`get_direction()`), and the identifier of its parent part
(`get_parent().get_identifier()`). -/
structure MlPortData where
  identifier : String
  direction : Direction
  parentId : String
  deriving DecidableEq, Repr

/-- A wiring as returned by `part.get_interfaces()`: a master (source)
port and a slave (destination) port. -/
structure MlInterface where
  masterPort : MlPortData
  slavePort : MlPortData
  deriving DecidableEq, Repr

/-- A part's description tag (`part._Part__description`):
`Part.STRUCTURAL` for a part with children and wiring, otherwise a leaf
(behavioral) part. -/
inductive PartKind where
  | STRUCTURAL
  | BEHAVIORAL
  deriving DecidableEq, Repr

/-- A part as read by `DiagramSerializer.export_part_to_json`
(src/serializer.py): identifier, class name, the structural tag, its IN
and OUT ports (`get_ports`), its direct children (`get_parts`) and its
direct wirings (`get_interfaces`).  Children are parts in turn; the
export reads only one level. -/
inductive MlPart where
  | mk (identifier className : String) (kind : PartKind)
      (portsIn portsOut : List MlPortData)
      (parts : List MlPart) (interfaces : List MlInterface)

/-- The part's instance identifier. -/
def MlPart.identifier : MlPart → String
  | .mk i _ _ _ _ _ _ => i

/-- The part's Python class name. -/
def MlPart.className : MlPart → String
  | .mk _ c _ _ _ _ _ => c

/-- The part's structural-or-leaf tag. -/
def MlPart.kind : MlPart → PartKind
  | .mk _ _ k _ _ _ _ => k

/-- The part's input ports, `get_ports(Port.IN)`. -/
def MlPart.portsIn : MlPart → List MlPortData
  | .mk _ _ _ pin _ _ _ => pin

/-- The part's output ports, `get_ports(Port.OUT)`. -/
def MlPart.portsOut : MlPart → List MlPortData
  | .mk _ _ _ _ pout _ _ => pout

/-- The part's direct children, `get_parts()`. -/
def MlPart.parts : MlPart → List MlPart
  | .mk _ _ _ _ _ ps _ => ps

/-- The part's direct wirings, `get_interfaces()`. -/
def MlPart.interfaces : MlPart → List MlInterface
  | .mk _ _ _ _ _ _ is => is

/-- A `{name, direction}` entry of a "ports" list in the exported JSON. -/
structure PortJson where
  name : String
  direction : Direction
  deriving DecidableEq, Repr

/-- An `{identifier, class, ports}` entry of the "inner_parts" list;
`className` carries the JSON key "class". -/
structure InnerPartJson where
  identifier : String
  className : String
  ports : List PortJson
  deriving DecidableEq, Repr

/-- A `{part_id, port_id}` endpoint of a connection. -/
structure EndpointJson where
  part_id : String
  port_id : String
  deriving DecidableEq, Repr

/-- A `{source, destination}` entry of the "connections" list. -/
structure ConnectionJson where
  source : EndpointJson
  destination : EndpointJson
  deriving DecidableEq, Repr

/-- The "part" object of the exported JSON; `className` carries the JSON
key "class". -/
structure PartJson where
  identifier : String
  className : String
  ports : List PortJson
  inner_parts : List InnerPartJson
  connections : List ConnectionJson
  deriving DecidableEq, Repr

/-- The root object of the exported JSON: `{format_version, part}`. -/
structure DiagramJson where
  format_version : String
  part : PartJson
  deriving DecidableEq, Repr

/-- The `{name, direction}` record built for one port. -/
def portEntry (p : MlPortData) : PortJson :=
  { name := p.identifier, direction := p.direction }

/-- `DiagramSerializer.export_part_to_json` (src/serializer.py), with the
JSON text abstracted to the record it serializes: raises TypeError
(SERIALIZATION_ONLY_STRUCTURAL) unless the part is structural; otherwise
walks the part's own IN and OUT ports, each direct child with its ports,
and each interface with part ids taken from the connected ports'
parents. -/
def exportPartToJson (part : MlPart) : Except String DiagramJson :=
  if part.kind ≠ PartKind.STRUCTURAL then
    Except.error "SERIALIZATION_ONLY_STRUCTURAL"
  else
    Except.ok
      { format_version := "1.0"
        part :=
          { identifier := part.identifier
            className := part.className
            ports := (part.portsIn ++ part.portsOut).map portEntry
            inner_parts := part.parts.map fun c =>
              { identifier := c.identifier
                className := c.className
                ports := (c.portsIn ++ c.portsOut).map portEntry }
            connections := part.interfaces.map fun i =>
              { source :=
                  { part_id := i.masterPort.parentId
                    port_id := i.masterPort.identifier }
                destination :=
                  { part_id := i.slavePort.parentId
                    port_id := i.slavePort.identifier } } } }

/-- The diagram-exchange shape promised by the spec for a structural part,
written from the spec's words (§6 and the claim): `{format_version, part:
{identifier, class, ports, inner_parts, connections}}` where the ports
list covers exactly the part's own input and output ports, inner_parts
exactly its direct children with their ports, and connections exactly its
direct wirings with each endpoint's part id taken from the connected
port's parent part. -/
def specDiagramShape (part : MlPart) : DiagramJson :=
  { format_version := "1.0"
    part :=
      { identifier := part.identifier
        className := part.className
        ports := (part.portsIn ++ part.portsOut).map fun p =>
          { name := p.identifier, direction := p.direction }
        inner_parts := part.parts.map fun c =>
          { identifier := c.identifier
            className := c.className
            ports := (c.portsIn ++ c.portsOut).map fun p =>
              { name := p.identifier, direction := p.direction } }
        connections := part.interfaces.map fun i =>
          { source :=
              { part_id := i.masterPort.parentId
                port_id := i.masterPort.identifier }
            destination :=
              { part_id := i.slavePort.parentId
                port_id := i.slavePort.identifier } } } }

/-- A concrete structural part used to evaluate the export: a register
wired to a sink, mirroring a fragment of the demo testbench
(src/demos/rtl/register.py). -/
def sampleTestbench : MlPart :=
  MlPart.mk "tb" "Testbench" PartKind.STRUCTURAL [] []
    [ MlPart.mk "dut" "Register" PartKind.BEHAVIORAL
        [ { identifier := "clk", direction := Direction.IN, parentId := "dut" },
          { identifier := "rst", direction := Direction.IN, parentId := "dut" },
          { identifier := "in_0", direction := Direction.IN, parentId := "dut" } ]
        [ { identifier := "out_0", direction := Direction.OUT, parentId := "dut" } ]
        [] [],
      MlPart.mk "sink" "Sink" PartKind.BEHAVIORAL
        [ { identifier := "in_0", direction := Direction.IN, parentId := "sink" } ]
        [] [] [] ]
    [ { masterPort := { identifier := "out_0", direction := Direction.OUT, parentId := "dut" },
        slavePort := { identifier := "in_0", direction := Direction.IN, parentId := "sink" } } ]

end Me

namespace Me

/-- The source's cycle counter counts the rising edges fired so far. -/
theorem tbRun_cycle (n : Nat) : (tbRun n).cycle = n := by
  induction n with
  | zero => rfl
  | succ n ih => simp [tbRun, tbStep, ih]

/-- C1: the rising-edge gate records the current value unconditionally and
invokes the wrapped behavior iff previous ∈ {Forcing0, Weak0} and
current ∈ {Forcing1, Weak1}; every other pair suppresses the invocation. -/
theorem rising_edge_gate_spec :
    ∀ prev current : Logic,
      (risingEdgeStep prev current).2 = current ∧
      ((risingEdgeStep prev current).1 = true ↔
        ((prev = Logic.ZERO ∨ prev = Logic.L) ∧
         (current = Logic.ONE ∨ current = Logic.H))) := by
  decide

/-- C2: logic inversion is total on the 9-valued type: Forcing0↔Forcing1,
Weak0↔Weak1, and each of the other five values maps to ForcingUnknown. -/
theorem logic_invert_spec :
    Logic.invert Logic.ZERO = Logic.ONE ∧
    Logic.invert Logic.ONE = Logic.ZERO ∧
    Logic.invert Logic.L = Logic.H ∧
    Logic.invert Logic.H = Logic.L ∧
    Logic.invert Logic.U = Logic.X ∧
    Logic.invert Logic.X = Logic.X ∧
    Logic.invert Logic.Z = Logic.X ∧
    Logic.invert Logic.W = Logic.X ∧
    Logic.invert Logic.DONT_CARE = Logic.X := by
  decide

/-- C9: double inversion is the identity exactly on the four determinate
values Forcing0, Forcing1, Weak0, Weak1, and yields ForcingUnknown on every
other Logic value. -/
theorem logic_double_invert :
    ∀ v : Logic,
      Logic.invert (Logic.invert v) =
        if v = Logic.ZERO ∨ v = Logic.ONE ∨ v = Logic.L ∨ v = Logic.H
        then v else Logic.X := by
  decide

/-- C8: on the observed value sequence [U, 0, 1, 1, 0, 1] the wrapped
behavior fires exactly at invocation indices 2 and 5 (the 0→1 transitions)
and nowhere else; in particular never on a 1→1 repeat. -/
theorem rising_edge_gate_sequence :
    risingEdgeRun Logic.U
        [Logic.U, Logic.ZERO, Logic.ONE, Logic.ONE, Logic.ZERO, Logic.ONE] =
      [false, false, true, false, false, true] := by
  decide

/-- C4: the bit character emitted by the VCD monitor for each Logic value:
Forcing1 and Weak1 → '1', Forcing0 and Weak0 → '0', HighImpedance → 'z',
and each of Uninitialized, ForcingUnknown, WeakUnknown, DontCare → 'x'. -/
theorem vcd_bit_mapping_spec :
    vcdVal Logic.ONE = '1' ∧ vcdVal Logic.H = '1' ∧
    vcdVal Logic.ZERO = '0' ∧ vcdVal Logic.L = '0' ∧
    vcdVal Logic.Z = 'z' ∧
    vcdVal Logic.U = 'x' ∧ vcdVal Logic.X = 'x' ∧
    vcdVal Logic.W = 'x' ∧ vcdVal Logic.DONT_CARE = 'x' := by
  decide

/-- C3: in the register testbench, out_0 is ZERO on each of the first 5
clock rising edges (reset dominates) and mirrors in_0 on every later edge,
where in_0 follows the ONE,ZERO,ZERO,ZERO cycle (ONE when the edge index is
divisible by 4). -/
theorem register_testbench_spec :
    ∀ k : Nat,
      (tbRun (k + 1)).in0 = (if k % 4 = 0 then Logic.ONE else Logic.ZERO) ∧
      (tbRun (k + 1)).out0 =
        (if k < 5 then Logic.ZERO else (tbRun (k + 1)).in0) := by
  intro k
  have hc := tbRun_cycle k
  constructor
  · simp [tbRun, tbStep, sourceDrive, hc]
  · by_cases h : k < 5
    · simp [tbRun, tbStep, sourceDrive, registerBehavior, hc, h]
    · simp [tbRun, tbStep, sourceDrive, registerBehavior, hc, h]

/-- Value-change lines contribute no `#` header timestamps. -/
theorem filterMap_headerTs_valueLines (ups : List (Logic × String)) :
    List.filterMap (VCDLine.headerTs ∘ fun u => VCDLine.valueLine (vcdVal u.1) u.2) ups
      = [] := by
  induction ups with
  | nil => rfl
  | cons u rest ih =>
    simp [List.filterMap_cons, VCDLine.headerTs, Function.comp, ih]

/-- From any monitor state, every `#` header line emitted during a run
carries a timestamp strictly greater than the state's `last_timestamp`, and
the emitted header timestamps are strictly increasing: stated as a strict
chain with the starting `last_timestamp` prepended. -/
theorem vcdRun_timestamps_chain (invs : List (Option Int × List (Logic × String))) :
    ∀ s : VCDState,
      List.Chain' (· < ·)
        (s.lastTimestamp :: emittedTimestamps (vcdRun s invs).2) := by
  induction invs with
  | nil =>
    intro s
    simp [vcdRun, emittedTimestamps]
  | cons inv rest ih =>
    intro s
    match hin : inv.1 with
    | none =>
      simpa [vcdRun, vcdBehavior, hin] using ih s
    | some ts =>
      by_cases h : s.lastTimestamp < ts
      · have := ih { lastTimestamp := ts }
        simp only [vcdRun, vcdBehavior, hin, if_pos h, emittedTimestamps,
          List.filterMap_append, List.filterMap_map] at *
        refine List.Chain'.cons h ?_
        simpa [emittedTimestamps, VCDLine.headerTs, Function.comp,
          List.filterMap_cons, filterMap_headerTs_valueLines] using this
      · have := ih s
        simp only [vcdRun, vcdBehavior, hin, if_neg h, emittedTimestamps,
          List.filterMap_append, List.filterMap_map] at *
        simpa [VCDLine.headerTs, Function.comp, List.filterMap_cons,
          filterMap_headerTs_valueLines] using this

/-- C10: timestamp header lines written by the VCD monitor are strictly
increasing.  Starting from the initial state (`last_timestamp = -1`), the
`#` header timestamps of any run form a strictly increasing sequence all
exceeding -1; and per invocation with a present time value, a header line
is emitted (and `last_timestamp` replaced) exactly when the timestamp
strictly exceeds the recorded one, while the invocation's value-change
lines are appended regardless, under the previously written timestamp when
no new header appears. -/
theorem vcd_timestamps_monotone :
    (∀ invs : List (Option Int × List (Logic × String)),
      List.Chain' (· < ·)
        ((-1 : Int) :: emittedTimestamps (vcdRun VCDState.init invs).2)) ∧
    (∀ (s : VCDState) (ts : Int) (updates : List (Logic × String)),
      (vcdBehavior s (some ts) updates).2 =
        (if s.lastTimestamp < ts then [VCDLine.timestampLine ts] else []) ++
          updates.map (fun u => VCDLine.valueLine (vcdVal u.1) u.2) ∧
      (vcdBehavior s (some ts) updates).1.lastTimestamp =
        (if s.lastTimestamp < ts then ts else s.lastTimestamp)) ∧
    (∀ (s : VCDState) (updates : List (Logic × String)),
      vcdBehavior s none updates = (s, [])) := by
  refine ⟨fun invs => vcdRun_timestamps_chain invs VCDState.init, ?_, ?_⟩
  · intro s ts updates
    constructor
    · by_cases h : s.lastTimestamp < ts <;> simp [vcdBehavior, h]
    · by_cases h : s.lastTimestamp < ts <;> simp [vcdBehavior, h]
  · intro s updates
    rfl

/-- C5: exporting a non-structural (leaf) part fails with the
SERIALIZATION_ONLY_STRUCTURAL error, and export succeeds without this
error exactly when the part is structural. -/
theorem export_structural_only :
    ∀ part : MlPart,
      ((∃ j, exportPartToJson part = Except.ok j) ↔
        part.kind = PartKind.STRUCTURAL) ∧
      (exportPartToJson part = Except.error "SERIALIZATION_ONLY_STRUCTURAL" ↔
        part.kind ≠ PartKind.STRUCTURAL) := by
  intro part
  by_cases h : part.kind = PartKind.STRUCTURAL <;>
    simp [exportPartToJson, h]

/-- C6: for every structural part the export succeeds and produces exactly
the spec's diagram-exchange shape: format_version plus a part object whose
ports list covers exactly the part's own input and output ports, whose
inner_parts covers exactly its direct children with their ports, and whose
connections covers exactly its direct wirings with part ids taken from the
connected ports' parent parts. -/
theorem export_json_shape (part : MlPart)
    (h : part.kind = PartKind.STRUCTURAL) :
    exportPartToJson part = Except.ok (specDiagramShape part) := by
  have hne : ¬ part.kind ≠ PartKind.STRUCTURAL := by simp [h]
  simp only [exportPartToJson, if_neg hne]
  rfl

/-- C6 witness: the export of the concrete register-and-sink testbench
fragment evaluates to the spec shape. -/
theorem export_json_shape_witness :
    sampleTestbench.kind = PartKind.STRUCTURAL ∧
      exportPartToJson sampleTestbench = Except.ok (specDiagramShape sampleTestbench) :=
  ⟨rfl, export_json_shape sampleTestbench rfl⟩

/-- C7: `generate_code` raises the Unsupported-language ValueError exactly
when the upper-cased language is not "VHDL"; case variants such as "vhdl"
and "Vhdl" pass the guard. -/
theorem generate_code_language_spec :
    (∀ language : String,
      (generateCodeLanguageCheck language =
        Except.error ("Unsupported language: " ++ language) ↔
          pyUpper language ≠ "VHDL") ∧
      (generateCodeLanguageCheck language = Except.ok () ↔
          pyUpper language = "VHDL")) ∧
    generateCodeLanguageCheck "VHDL" = Except.ok () ∧
    generateCodeLanguageCheck "vhdl" = Except.ok () ∧
    generateCodeLanguageCheck "Vhdl" = Except.ok () ∧
    generateCodeLanguageCheck "verilog" =
      Except.error "Unsupported language: verilog" := by
  refine ⟨fun language => ?_, by rfl, by rfl, by rfl, by rfl⟩
  by_cases h : language.toUpper = "VHDL" <;>
    simp [generateCodeLanguageCheck, h]

end Me
